import Mathlib

/-!
Verification development for the feedquest repository: a shallow embedding of
the fetch–dedup–enrich–persist pipeline (src/main/tools/fetcher.py), the
SQLite-backed registry (src/main/tools/registry.py), the feed parser
(src/main/tools/rss_feed_utils.py) and the summarization gateway
(src/main/tools/summarizer.py), together with theorems settling the spec's
claims about them.

External collaborators (the HTTP transport, the feedparser library, the
BeautifulSoup HTML parser, the LLM backend, and datetime/strptime) are
abstracted as parameters or as structured inputs at the boundary where the
repository's own code consumes their results; everything the repository's own
code does with those results is translated statement by statement.
-/

namespace FeedQuest

/-! ## HTML model and clean_html (rss_feed_utils.py)

`clean_html` runs `BeautifulSoup(html, "html.parser").get_text(separator=" ",
strip=True)` on a raw HTML string.  We embed the input at the level of the
parsed document: an ordered forest of element and text nodes.  `get_text` with
`strip=True` collects every text node in document order (including the text
inside `script` and `style` elements — BeautifulSoup does not drop them unless
they are explicitly decomposed), strips each fragment, discards fragments that
become empty, and joins the rest with the separator. -/

inductive Html where
  | text (s : String) : Html
  | elem (tag : String) (children : List Html) : Html

/-- Python `str.strip()`: drop leading and trailing whitespace.  (Lean's
`String.trim` is extensionally the same but does not reduce in the kernel, so
we compute over the character list.) -/
def pyStrip (s : String) : String :=
  ⟨((s.data.dropWhile Char.isWhitespace).reverse.dropWhile Char.isWhitespace).reverse⟩

mutual

/-- All text-node strings of a node, in document order (BeautifulSoup
`strings`/`get_text` traversal; script and style text included). -/
def htmlTexts : Html → List String
  | .text s => [s]
  | .elem _ kids => htmlTextsList kids

/-- All text-node strings of a forest, in document order. -/
def htmlTextsList : List Html → List String
  | [] => []
  | h :: t => htmlTexts h ++ htmlTextsList t

end

/-- `soup.get_text(separator=sep, strip=True)`: strip each text fragment, drop
the ones that strip to empty, join the rest with `sep`. -/
def getTextStripped (sep : String) (nodes : List Html) : String :=
  String.intercalate sep (((htmlTextsList nodes).map pyStrip).filter (fun s => s ≠ ""))

/-- `clean_html` from src/main/tools/rss_feed_utils.py (lines 102-104):
`BeautifulSoup(html_content, "html.parser").get_text(separator=" ", strip=True)`.
Note: it does not decompose script/style elements, so their text survives. -/
def clean_html (nodes : List Html) : String :=
  getTextStripped " " nodes

mutual

/-- Remove a node when it is a `script` or `style` element (BeautifulSoup
`decompose` removes the whole subtree); recurse into other elements. -/
def dropScriptStyle : Html → Option Html
  | .text s => some (.text s)
  | .elem tag kids =>
      if tag = "script" ∨ tag = "style" then none
      else some (.elem tag (dropScriptStyleList kids))

/-- `dropScriptStyle` mapped over a forest, dropping removed nodes. -/
def dropScriptStyleList : List Html → List Html
  | [] => []
  | h :: t =>
      match dropScriptStyle h with
      | some h2 => h2 :: dropScriptStyleList t
      | none => dropScriptStyleList t

end

/-- The spec's words for `clean_html` ("script/style elements removed,
whitespace normalized"): decompose script/style elements first, then extract
the text.  Stated only to be compared with the source's `clean_html`. -/
def clean_html_spec (nodes : List Html) : String :=
  getTextStripped " " (dropScriptStyleList nodes)

/-! ## feedparser output model and parse_feed (rss_feed_utils.py)

`feedparser.parse` is an external library; we embed its output
(`FeedParserDict`): a `bozo` flag and a list of entries whose optional fields
are `none` when the corresponding key is absent.  The HTML-bearing fields
(`summary`, content items' `value`) are carried at the parsed-HTML level,
since `clean_html` is applied to them. -/

structure FPContent where
  value : List Html

structure FPTag where
  term : String

structure FPEntry where
  title : Option String := none
  link : Option String := none
  published : Option String := none
  summary : Option (List Html) := none
  content : Option (List FPContent) := none
  tags : Option (List FPTag) := none

structure FPFeed where
  bozo : Bool
  entries : List FPEntry

/-- Output record of `parse_feed`: all fields are plain strings (the HTML has
been cleaned), tags a list of term strings. -/
structure ParsedEntry where
  title : String
  link : String
  published : String
  tags : List String
  content : String
  summary : String
deriving Repr, DecidableEq

/-- The `content` loop of `parse_feed`: `cleaned_content` starts `""`; if
`"content" in entry and entry.content`, every item overwrites it with
`clean_html(content_item.value)`, so the last item wins. -/
def cleanedContent : Option (List FPContent) → String
  | none => ""
  | some items =>
      if items.isEmpty then ""
      else items.foldl (fun _ item => clean_html item.value) ""

/-- One iteration of the entry loop in `parse_feed` (rss_feed_utils.py lines
121-137): build the output dict with defaults for absent keys. -/
def parseFeedEntry (e : FPEntry) : ParsedEntry :=
  { title := e.title.getD ""
    link := e.link.getD ""
    published := e.published.getD ""
    tags := (e.tags.getD []).map (fun t => t.term)
    content := cleanedContent e.content
    summary :=
      match e.summary with
      | some h => clean_html h
      | none => "" }

/-- `parse_feed` from src/main/tools/rss_feed_utils.py (lines 106-138):
`if not feed_response.bozo and bool(feed_response.entries):` build the entry
records, else return the empty list. -/
def parse_feed (fp : FPFeed) : List ParsedEntry :=
  if fp.bozo = false ∧ fp.entries.isEmpty = false then fp.entries.map parseFeedEntry
  else []

/-! ## Store model and registry (src/main/tools/registry.py)

The SQLite database behind the registry: a `feeds` table and an `entries`
table, each kept in rowid order.  `db_schema.sql` is not part of the sources;
the constraints it declares are modelled from the spec (see `entryConflict`
and the uniqueness of `feeds.url` assumed by `INSERT OR IGNORE`). -/

structure FeedRow where
  id : Nat
  url : String
  added : String
  title : Option String
  etag : Option String
  last_modified : Option String
deriving Repr, DecidableEq

structure EntryRow where
  id : Nat
  feed_id : Nat
  title : Option String
  url : Option String
  published : Option String
  content : Option String
  summary : Option String
  ai_summary : Option String
  added : String
  tags : Option String
  ai_tags : Option String
deriving Repr, DecidableEq

structure DB where
  feeds : List FeedRow
  entries : List EntryRow
  nextFeedId : Nat
  nextEntryId : Nat
deriving Repr, DecidableEq

/-- The empty database produced by `init_schema` (SQLite rowids start at 1). -/
def DB.empty : DB := { feeds := [], entries := [], nextFeedId := 1, nextEntryId := 1 }

/-- `SELECT ... FROM feeds WHERE url = ?` (first row in rowid order). -/
def findFeed (db : DB) (url : String) : Option FeedRow :=
  db.feeds.find? (fun f => f.url = url)

/-- `_normalize_timestamp` from registry.py (lines 35-50).  `parse` abstracts
`datetime.strptime(ts, "%a, %d %b %Y %H:%M:%S %Z")` composed with the
conversion to an ISO-8601 UTC string; `now` abstracts the current time in the
same ISO form.  A falsy (`none`/empty) or unparseable input yields `now`; the
result is never `none`.  The `_CACHED_TIMESTAMPS` memo is elided — for a fixed
`parse`/`now` the function is pure, so the cache only repeats prior results. -/
def normalizeTimestamp (parse : String → Option String) (now : String)
    (ts : Option String) : String :=
  match ts with
  | none => now
  | some s =>
      if s = "" then now
      else
        match parse s with
        | some iso => iso
        | none => now

/-- The `feed_info` dict accepted by `add_feed`: optional `url`, `title`,
`etag`, `last_modified` keys (absent key = `none`). -/
structure FeedInfo where
  url : Option String := none
  title : Option String := none
  etag : Option String := none
  last_modified : Option String := none

/-- The UPDATE statement of `add_feed`'s already-existing branch, applied to
one feed row: set exactly the fields whose local value in `add_feed` is not
`None` — `title` and `etag` as supplied, `last_modified` always (it was
normalized and can no longer be `None`) — on the row keyed by the url. -/
def updFeedRow (info : FeedInfo) (lm : String) (feed_url : String)
    (f : FeedRow) : FeedRow :=
  if f.url = feed_url then
    { f with
      title := match info.title with | some t => some t | none => f.title
      etag := match info.etag with | some e => some e | none => f.etag
      last_modified := some lm }
  else f

/-- `add_feed` from registry.py (lines 52-107).  Strips the url and rejects an
empty one; normalizes `last_modified` (which therefore is never NULL);
`INSERT OR IGNORE` keyed on the url (the spec's "feeds table keyed by URL");
if the row already existed, updates exactly the fields whose local value is
not `None` — `title` and `etag` as supplied, and `last_modified` always,
because normalization has already replaced `None` by the current time.
Returns `True` in every non-rejected path. -/
def add_feed (parse : String → Option String) (now : String) (info : FeedInfo)
    (db : DB) : DB × Bool :=
  let feed_url := pyStrip (info.url.getD "")
  if feed_url = "" then (db, false)
  else
    let lm := normalizeTimestamp parse now info.last_modified
    match findFeed db feed_url with
    | none =>
        let row : FeedRow :=
          { id := db.nextFeedId, url := feed_url, added := now,
            title := info.title, etag := info.etag,
            last_modified := some (if lm = "" then now else lm) }
        ({ db with feeds := db.feeds ++ [row], nextFeedId := db.nextFeedId + 1 }, true)
    | some _ =>
        ({ db with feeds := db.feeds.map (updFeedRow info lm feed_url) }, true)

/-- Keyword arguments of `add_entry`. -/
structure EntryArgs where
  feed_url : String
  title : Option String := none
  url : Option String := none
  published : Option String := none
  content : Option String := none
  summary : Option String := none
  tags : Option (List String) := none
  ai_summary : Option String := none
  ai_tags : Option (List String) := none

/-- `if tags: tags = ",".join(tags) else: tags = None` — a `None` or empty
list becomes NULL, otherwise the comma-joined string. -/
def joinTags : Option (List String) → Option String
  | none => none
  | some ts => if ts.isEmpty then none else some (String.intercalate "," ts)

/-- Modelled from the spec: `db_schema.sql` is absent from the sources, and
`add_entry`'s `INSERT OR IGNORE` is a no-op exactly when the schema's
constraint fires.  The spec gives "an `entries` table with ... a uniqueness
constraint over (feed reference, link)", modelled as UNIQUE(feed_id, url)
with SQL semantics: a NULL link never conflicts. -/
def entryConflict (db : DB) (feed_id : Nat) (url : Option String) : Bool :=
  match url with
  | none => false
  | some u => db.entries.any (fun e => e.feed_id = feed_id ∧ e.url = some u)

/-- `add_entry` from registry.py (lines 166-207): resolve the feed id
(`None` when the feed url is unknown); join the tag lists; `INSERT OR IGNORE`
into `entries`; return the fresh rowid on insertion and `None` when the
insert was ignored (`cur.lastrowid if cur.rowcount else None`). -/
def add_entry (now : String) (a : EntryArgs) (db : DB) : DB × Option Nat :=
  match findFeed db a.feed_url with
  | none => (db, none)
  | some f =>
      if entryConflict db f.id a.url then (db, none)
      else
        let row : EntryRow :=
          { id := db.nextEntryId, feed_id := f.id, title := a.title,
            url := a.url, published := a.published, content := a.content,
            summary := a.summary, ai_summary := a.ai_summary, added := now,
            tags := joinTags a.tags, ai_tags := joinTags a.ai_tags }
        ({ db with entries := db.entries ++ [row], nextEntryId := db.nextEntryId + 1 },
         some row.id)

/-- The dict built by `list_feeds`/`get_feed`: `url` and `added` always
present, the optional columns omitted (`none`) when NULL or empty (the Python
code guards each with `if value:`). -/
structure FeedDict where
  url : String
  added : String
  title : Option String
  etag : Option String
  last_modified : Option String
deriving Repr, DecidableEq

/-- `if value: entry[key] = value` — a NULL or empty column is omitted. -/
def presentOpt : Option String → Option String
  | none => none
  | some s => if s = "" then none else some s

/-- Row-to-dict conversion shared by `list_feeds` and `get_feed`. -/
def feedToDict (f : FeedRow) : FeedDict :=
  { url := f.url, added := f.added, title := presentOpt f.title,
    etag := presentOpt f.etag, last_modified := presentOpt f.last_modified }

/-- `list_feeds` from registry.py (lines 110-136): every feed row in rowid
(insertion) order, as dicts. -/
def list_feeds (db : DB) : List FeedDict :=
  db.feeds.map feedToDict

/-- `get_feed` from registry.py (lines 139-161): point lookup by url. -/
def get_feed (db : DB) (url : String) : Option FeedDict :=
  (findFeed db url).map feedToDict

/-- "At most one Entry per (feed, link) pair": no two distinct entry rows
share a feed id and a non-NULL link. -/
def EntriesUnique (db : DB) : Prop :=
  db.entries.Pairwise
    (fun e₁ e₂ => e₁.url = e₂.url → e₁.url ≠ none → e₁.feed_id ≠ e₂.feed_id)

/-! ## Summarization gateway (src/main/tools/summarizer.py)

`summarize_text` issues one chat-completions request (the network and the LLM
are abstracted as `backend`), strips the returned message content and returns
it — a plain string, per its annotation (`-> str`), its docstring
("Returns: str: The generated summary") and its tests.  An exception from the
client is re-raised wrapped in a new message. -/

/-- `summarize_text` from summarizer.py (lines 45-91). -/
def summarize_text (backend : String → Except String String) (text : String) :
    Except String String :=
  match backend text with
  | .ok content => .ok (pyStrip content)
  | .error e => .error ("Error generating summary: " ++ e)

/-! ## Orchestrator (src/main/tools/fetcher.py)

The per-entry retry loop stores the gateway result in `ai_summary`, a Python
variable that holds the initial dict `{"summary": "", "ai_tags": []}` until
the first successful call replaces it with whatever `summarize_text`
returned.  `AiVal` captures the two shapes that variable can take, and the
dynamic attribute access `ai_summary.get("summary")` — a dict lookup on one
shape, an `AttributeError` on the other. -/

inductive AiVal where
  | dict (summary : String) (ai_tags : List String) : AiVal
  | str (s : String) : AiVal
deriving Repr, DecidableEq

/-- `ai_summary.get("summary")`: dict lookup, or `AttributeError` when the
variable holds the string returned by `summarize_text`. -/
def aiGetSummary : AiVal → Except String String
  | .dict s _ => .ok s
  | .str _ => .error "AttributeError"

/-- `ai_summary.get("ai_tags")`: dict lookup or `AttributeError`. -/
def aiGetTags : AiVal → Except String (List String)
  | .dict _ t => .ok t
  | .str _ => .error "AttributeError"

/-- One iteration of the retry loop (fetcher.py lines 122-138): call
`summarize_text` under the semaphore and test `ai_summary.get("summary")`,
all inside `try`.  Returns the new `ai_summary` and whether the loop `break`s
(a non-empty summary was read).  An exception — from the call or from the
`.get` on a string — is caught and the loop continues into backoff. -/
def attemptOnce (backend : String → Except String String) (content : String)
    (ai : AiVal) : AiVal × Bool :=
  match summarize_text backend content with
  | .error _ => (ai, false)
  | .ok s =>
      let ai2 := AiVal.str s
      match aiGetSummary ai2 with
      | .ok summ => (ai2, summ ≠ "")
      | .error _ => (ai2, false)

/-- The bounded retry loop `for attempt in range(max_retries)` with the
initial `ai_summary = {"summary": "", "ai_tags": []}` threaded through;
the backoff sleeps do not affect the state. -/
def retrySummarize (backend : String → Except String String) (content : String) :
    Nat → AiVal → AiVal
  | 0, ai => ai
  | n + 1, ai =>
      let (ai2, brk) := attemptOnce backend content ai
      if brk then ai2 else retrySummarize backend content n ai2

/-- Content extraction for one parsed entry (fetcher.py lines 105-117):
prefer `entry.get("content")`, fall back to `entry.get("summary")`, and
`continue` when neither is truthy.  `parse_feed` always yields string-valued
`content`, so the `isinstance(first, list)` branch is dead and
`feed_content = str(first)` is the string itself. -/
def extractContent (e : ParsedEntry) : Option String :=
  if e.content ≠ "" then some e.content
  else if e.summary ≠ "" then some e.summary
  else none

/-- The body of the per-entry loop of `_process_feed` (fetcher.py lines
103-176), wrapped in its own `try`: extract the text (skip when empty), run
the retry loop, skip when `ai_summary.get("summary")` is falsy — where the
`.get` itself raises `AttributeError` into the outer `except` whenever the
gateway's string reached `ai_summary` — convert the tags (already plain
strings from `parse_feed`), and `add_entry` under the write lock.  Returns
the updated store and the count contribution (1 if a row was inserted). -/
def processEntry (backend : String → Except String String) (now : String)
    (feed_url : String) (e : ParsedEntry) (db : DB) : DB × Nat :=
  match extractContent e with
  | none => (db, 0)
  | some content =>
      let ai := retrySummarize backend content 3 (.dict "" [])
      match aiGetSummary ai with
      | .error _ => (db, 0)
      | .ok summ =>
          if summ = "" then (db, 0)
          else
            match aiGetTags ai with
            | .error _ => (db, 0)
            | .ok aiTags =>
                let (db2, res) := add_entry now
                  { feed_url := feed_url, title := some e.title,
                    url := some e.link, published := some e.published,
                    content := some e.content, summary := some e.summary,
                    tags := some e.tags, ai_summary := some summ,
                    ai_tags := some aiTags } db
                match res with
                | some _ => (db2, 1)
                | none => (db2, 0)

/-- An HTTP response as `_process_feed` consumes it: the status code, the
body already run through `feedparser.parse` (an external library), and the
`ETag` / `Last-Modified` response headers. -/
structure HttpResp where
  status_code : Nat
  body : FPFeed
  etagHdr : Option String
  lastModifiedHdr : Option String

/-- `_async_fetch` from fetcher.py (lines 42-59): issue the conditional GET
(`client` abstracts `httpx`, raising transport errors as `.error`), then
`raise_for_status` on any 4xx/5xx other than 304. -/
def asyncFetch (client : String → Option String → Option String → Except String HttpResp)
    (url : String) (etag : Option String) (lastMod : Option String) :
    Except String HttpResp :=
  match client url etag lastMod with
  | .error e => .error e
  | .ok resp =>
      if resp.status_code ≠ 304 ∧ 400 ≤ resp.status_code then .error "HTTPStatusError"
      else .ok resp

/-- The external collaborators `_process_feed` needs: the HTTP client, the
summarization backend, the strptime abstraction used by `add_feed`, and the
current time. -/
structure Env where
  client : String → Option String → Option String → Except String HttpResp
  backend : String → Except String String
  parseTs : String → Option String
  now : String

/-- `_process_feed` from fetcher.py (lines 61-186): look up the stored feed
(0 when unregistered); conditional fetch with the stored validators (0 on any
fetch exception); 0 on a 304 with nothing else done; parse; 0 when no
entries; process the 5 newest entries sequentially; finally upsert the feed
metadata when the response carried an `ETag` or `Last-Modified` header. -/
def process_feed (env : Env) (feed_url : String) (db : DB) : DB × Nat :=
  match get_feed db feed_url with
  | none => (db, 0)
  | some stored =>
      match asyncFetch env.client feed_url stored.etag stored.last_modified with
      | .error _ => (db, 0)
      | .ok resp =>
          if resp.status_code = 304 then (db, 0)
          else
            let parsed := parse_feed resp.body
            if parsed.isEmpty then (db, 0)
            else
              let entries := parsed.take 5
              let step := fun (acc : DB × Nat) (e : ParsedEntry) =>
                let (d2, k) := processEntry env.backend env.now feed_url e acc.1
                (d2, acc.2 + k)
              let r := entries.foldl step (db, 0)
              let db2 :=
                if resp.etagHdr ≠ none ∨ resp.lastModifiedHdr ≠ none then
                  (add_feed env.parseTs env.now
                    { url := some feed_url, etag := resp.etagHdr,
                      last_modified := resp.lastModifiedHdr } r.1).1
                else r.1
              (db2, r.2)

/-! ## Batch entry point (fetcher.py `fetch_batch`)

The per-feed units run under `asyncio.gather(..., return_exceptions=True)`;
each task's outcome — its integer result, or the exception it raised — is
abstracted as `run : String → Except String Nat` (the store effects happen
inside the tasks).  The aggregation below is the source's counting logic:
`sum(r if isinstance(r, int) else 0 for r in results)` and
`len(feed_urls)`. -/

/-- `sum(r if isinstance(r, int) else 0 for r in results)`. -/
def batchTotal (results : List (Except String Nat)) : Nat :=
  (results.map (fun r => match r with | .ok n => n | .error _ => 0)).foldl (· + ·) 0

/-- The sort key `f.get("last_modified")` compared by CPython: comparing
`None` with anything (including `None`) raises `TypeError`, and in a list of
two or more elements every element takes part in at least one comparison.
Python's `list.sort` is a stable ascending sort, so on string keys its output
coincides with any stable sort; we use insertion sort, which is stable. -/
def sortFeedsByLm (fs : List FeedDict) : Except String (List FeedDict) :=
  if fs.length ≤ 1 ∨ fs.all (fun f => f.last_modified.isSome) then
    .ok (fs.insertionSort (fun a b => a.last_modified.getD "" ≤ b.last_modified.getD ""))
  else .error "TypeError"

/-- The default-selection branch of `fetch_batch` (fetcher.py lines 194-197):
sort all registered feeds by `last_modified` and keep the urls of the first
5 (`all_feeds[:5]`; the docstring says 10, the code says 5). -/
def defaultUrls (db : DB) : Except String (List String) :=
  match sortFeedsByLm (list_feeds db) with
  | .ok fs => .ok ((fs.take 5).map (fun f => f.url))
  | .error e => .error e

/-- `fetch_batch` from fetcher.py (lines 188-201): `if not feed_urls` (None
or the empty list) select the default urls, then gather the per-feed tasks
and aggregate `(len(feed_urls), total_added)`. -/
def fetch_batch (run : String → Except String Nat) (feed_urls : Option (List String))
    (db : DB) : Except String (Nat × Nat) :=
  let urlsE : Except String (List String) :=
    match feed_urls with
    | none => defaultUrls db
    | some [] => defaultUrls db
    | some us => .ok us
  match urlsE with
  | .error e => .error e
  | .ok urls => .ok (urls.length, batchTotal (urls.map run))

/-- Store states reachable through the registry's write operations.  The two
side conditions record facts about the elided datetime library: `now` is a
nonempty ISO string, and a successful `strptime`-normalization is a nonempty
ISO string. -/
inductive Reachable : DB → Prop where
  | init : Reachable DB.empty
  | step_add_feed (parse : String → Option String) (now : String) (info : FeedInfo)
      (db : DB) (hnow : now ≠ "")
      (hparse : ∀ s r, parse s = some r → r ≠ "")
      (h : Reachable db) : Reachable (add_feed parse now info db).1
  | step_add_entry (now : String) (a : EntryArgs) (db : DB)
      (h : Reachable db) : Reachable (add_entry now a db).1

/-! ## Theorems -/

/-- When the backend fails on every input, every attempt of the retry loop
leaves `ai_summary` untouched. -/
theorem retrySummarize_const_of_backend_error
    (backend : String → Except String String) (content : String)
    (h : ∀ t, ∃ msg, backend t = .error msg) :
    ∀ n ai, retrySummarize backend content n ai = ai := by
  intro n
  induction n with
  | zero => intro ai; rfl
  | succ k ih =>
      intro ai
      obtain ⟨msg, hmsg⟩ := h content
      simp [retrySummarize, attemptOnce, summarize_text, hmsg, ih]

/-- Claim C10: a parsed entry with no non-empty content value and no
non-empty summary field is silently skipped by the per-entry loop — for every
backend, it is never summarized or stored, the store is unchanged, and it
contributes zero to the added count even when its (feed, link) pair is new. -/
theorem c10_empty_text_entry_skipped
    (backend : String → Except String String) (now feed_url : String)
    (e : ParsedEntry) (db : DB) (hc : e.content = "") (hs : e.summary = "") :
    processEntry backend now feed_url e db = (db, 0) := by
  simp [processEntry, extractContent, hc, hs]

/-- Witness for C10 at a concrete entry with empty content and summary, a
backend that would succeed, and the empty store. -/
theorem c10_empty_text_entry_skipped_witness :
    processEntry (fun _ => .ok "a summary") "2026-01-01T00:00:00Z" "u"
      { title := "t", link := "l", published := "p", tags := [],
        content := "", summary := "" } DB.empty = (DB.empty, 0) :=
  c10_empty_text_entry_skipped (fun _ => .ok "a summary")
    "2026-01-01T00:00:00Z" "u" _ DB.empty rfl rfl

/-- Claim C5: when the stored feed exists and the conditional fetch returns
HTTP 304, `_process_feed` reports 0 added entries and the store is unchanged
— no entry insertion and no feed-metadata upsert — whatever the response
body holds (so nothing is parsed). -/
theorem c5_not_modified_short_circuit (env : Env) (feed_url : String) (db : DB)
    (stored : FeedDict) (resp : HttpResp)
    (hstored : get_feed db feed_url = some stored)
    (hclient : env.client feed_url stored.etag stored.last_modified = .ok resp)
    (h304 : resp.status_code = 304) :
    process_feed env feed_url db = (db, 0) := by
  simp [process_feed, hstored, asyncFetch, hclient, h304]

/-- Witness for C5: a concrete registered feed whose fetch yields 304 with an
arbitrary non-empty body and new header values; the poll returns `(db, 0)`. -/
theorem c5_not_modified_short_circuit_witness :
    process_feed
      { client := fun _ _ _ => .ok
          { status_code := 304,
            body := { bozo := false,
                      entries := [{ title := some "A", link := some "l" }] },
            etagHdr := some "E2", lastModifiedHdr := some "M2" },
        backend := fun _ => .ok "s", parseTs := fun _ => none,
        now := "2026-01-01T00:00:00Z" } "u"
      { feeds := [{ id := 1, url := "u", added := "T0", title := none,
                    etag := some "E", last_modified := some "M" }],
        entries := [], nextFeedId := 2, nextEntryId := 1 } =
    ({ feeds := [{ id := 1, url := "u", added := "T0", title := none,
                   etag := some "E", last_modified := some "M" }],
       entries := [], nextFeedId := 2, nextEntryId := 1 }, 0) :=
  c5_not_modified_short_circuit _ "u" _
    { url := "u", added := "T0", title := none, etag := some "E",
      last_modified := some "M" } _ rfl rfl rfl

/-- `batchTotal` is the sum of the per-task values. -/
theorem batchTotal_eq_sum (rs : List (Except String Nat)) :
    batchTotal rs =
      (rs.map (fun r => match r with | .ok n => n | .error _ => 0)).sum := by
  unfold batchTotal
  exact List.sum_eq_foldl.symm

/-- Claim C4: in every explicit batch, a feed whose unit raises contributes
zero, the batch still returns normally with `feeds_attempted` equal to the
full batch size, and the total is exactly the other feeds' contributions. -/
theorem c4_partial_failure_isolation (run : String → Except String Nat)
    (db : DB) (pre post : List String) (u msg : String)
    (hu : run u = .error msg) :
    fetch_batch run (some (pre ++ u :: post)) db =
      .ok ((pre ++ u :: post).length,
           batchTotal (pre.map run) + batchTotal (post.map run)) := by
  have hne : ∀ (l : List String), l ≠ [] →
      fetch_batch run (some l) db = .ok (l.length, batchTotal (l.map run)) := by
    intro l hl
    cases l with
    | nil => exact absurd rfl hl
    | cons x xs => rfl
  rw [hne (pre ++ u :: post) (by simp)]
  rw [List.map_append, List.map_cons, batchTotal_eq_sum, batchTotal_eq_sum,
    batchTotal_eq_sum, List.map_append, List.map_cons, List.sum_append,
    List.sum_cons, hu]
  simp

/-- Witness for C4: feeds "a" and "c" add 2 and 5 entries, feed "b" throws;
the batch reports `(3, 7)`. -/
theorem c4_partial_failure_isolation_witness :
    fetch_batch
      (fun u => if u = "a" then .ok 2 else if u = "b" then .error "boom" else .ok 5)
      (some ["a", "b", "c"]) DB.empty = .ok (3, 7) :=
  c4_partial_failure_isolation
    (fun u => if u = "a" then .ok 2 else if u = "b" then .error "boom" else .ok 5)
    DB.empty ["a"] ["c"] "b" "boom" rfl

/-- Claim C1, counterexample: a registered feed serves one new entry with
non-empty content, and the summarizer fails on every retry; the claim says
the entry is nevertheless inserted with empty summary and empty tag set, but
`_process_feed` returns the store unchanged — no entry row — and 0 added
(fetcher.py lines 142-145 skip the entry). -/
theorem c1_entry_dropped_counterexample :
    process_feed
      { client := fun _ _ _ => .ok
          { status_code := 200,
            body := { bozo := false,
                      entries := [{ title := some "A",
                                    link := some "https://example.com/a",
                                    published := some "P",
                                    content := some [{ value := [Html.text "Hello world"] }] }] },
            etagHdr := none, lastModifiedHdr := none },
        backend := fun _ => .error "rate limited", parseTs := fun _ => none,
        now := "2026-01-01T00:00:00Z" } "u"
      { feeds := [{ id := 1, url := "u", added := "T0", title := none,
                    etag := none, last_modified := some "M" }],
        entries := [], nextFeedId := 2, nextEntryId := 1 } =
    ({ feeds := [{ id := 1, url := "u", added := "T0", title := none,
                   etag := none, last_modified := some "M" }],
       entries := [], nextFeedId := 2, nextEntryId := 1 }, 0) := by
  rfl

/-- Claim C1 as amended: when the summarization call fails on every retry
attempt, the per-entry loop skips the entry — it is not inserted, the store
is unchanged, and it contributes zero to the added count. -/
theorem c1_entry_skipped_when_all_retries_fail
    (backend : String → Except String String) (now feed_url : String)
    (e : ParsedEntry) (db : DB) (h : ∀ t, ∃ msg, backend t = .error msg) :
    processEntry backend now feed_url e db = (db, 0) := by
  unfold processEntry
  cases hext : extractContent e with
  | none => rfl
  | some content =>
      have hr := retrySummarize_const_of_backend_error backend content h 3 (.dict "" [])
      simp [hr]
      rfl

/-- Witness for the amended C1 at a concrete always-failing backend and a
concrete entry with content. -/
theorem c1_entry_skipped_witness :
    processEntry (fun _ => .error "boom") "2026-01-01T00:00:00Z" "u"
      { title := "A", link := "l", published := "p", tags := [],
        content := "Hello world", summary := "" } DB.empty = (DB.empty, 0) :=
  c1_entry_skipped_when_all_retries_fail (fun _ => .error "boom")
    "2026-01-01T00:00:00Z" "u" _ DB.empty (fun _ => ⟨"boom", rfl⟩)

/-- Claim C2, code evaluated at the failing input: the gateway returns the
plain string it got from the model — no record with `summary`/`ai_tags`
fields — so the orchestrator's reads of those fields raise
`AttributeError`, the retry loop never breaks, and the entry is dropped
instead of stored. -/
theorem c2_gateway_returns_string_not_record :
    summarize_text (fun _ => .ok "A summary.") "hello" = .ok "A summary." ∧
    retrySummarize (fun _ => .ok "A summary.") "hello" 3 (.dict "" []) =
      .str "A summary." ∧
    aiGetSummary (.str "A summary.") = .error "AttributeError" ∧
    aiGetTags (.str "A summary.") = .error "AttributeError" ∧
    processEntry (fun _ => .ok "A summary.") "2026-01-01T00:00:00Z" "u"
      { title := "A", link := "l", published := "p", tags := [],
        content := "hello", summary := "" } DB.empty = (DB.empty, 0) := by
  refine ⟨by rfl, by rfl, rfl, rfl, by rfl⟩

/-- The `INSERT OR IGNORE` conflict test of `add_entry`, as a proposition:
some existing row shares the feed id and the (non-NULL) link. -/
theorem entryConflict_iff (db : DB) (fid : Nat) (url : Option String) :
    entryConflict db fid url = true ↔
      ∃ e ∈ db.entries, e.feed_id = fid ∧ e.url = url ∧ url ≠ none := by
  cases url with
  | none => simp [entryConflict]
  | some u => simp [entryConflict]

/-- Claim C3: `add_entry` is insert-if-absent.  With at most one entry row
per (feed, non-NULL link) pair in the store: the pair invariant is preserved;
an unknown feed url yields `none` with the store unchanged; a pair that
already exists yields `none` as a silent no-op — the store, hence the
existing row, is untouched; and a new pair is appended with the fresh
identifier returned. -/
theorem c3_add_entry_insert_if_absent (now : String) (a : EntryArgs) (db : DB)
    (h : EntriesUnique db) :
    EntriesUnique (add_entry now a db).1 ∧
    (findFeed db a.feed_url = none → add_entry now a db = (db, none)) ∧
    (∀ f, findFeed db a.feed_url = some f →
      ((∃ e ∈ db.entries, e.feed_id = f.id ∧ e.url = a.url ∧ a.url ≠ none) →
         add_entry now a db = (db, none)) ∧
      ((¬ ∃ e ∈ db.entries, e.feed_id = f.id ∧ e.url = a.url ∧ a.url ≠ none) →
         (add_entry now a db).2 = some db.nextEntryId ∧
         (add_entry now a db).1.entries = db.entries ++
           [{ id := db.nextEntryId, feed_id := f.id, title := a.title,
              url := a.url, published := a.published, content := a.content,
              summary := a.summary, ai_summary := a.ai_summary, added := now,
              tags := joinTags a.tags, ai_tags := joinTags a.ai_tags }])) := by
  refine ⟨?_, ?_, ?_⟩
  · unfold add_entry
    cases hf : findFeed db a.feed_url with
    | none => exact h
    | some f =>
        cases hcb : entryConflict db f.id a.url with
        | true => simp only [hcb, if_true]; exact h
        | false =>
            simp only [hcb, Bool.false_eq_true, if_false]
            unfold EntriesUnique at h ⊢
            rw [List.pairwise_append]
            refine ⟨h, List.pairwise_singleton _ _, ?_⟩
            intro x hx y hy
            simp only [List.mem_singleton] at hy
            subst hy
            intro hurl hne hfeq
            have hurl2 : x.url = a.url := hurl
            have hfeq2 : x.feed_id = f.id := hfeq
            have hconf := (entryConflict_iff db f.id a.url).2
              ⟨x, hx, hfeq2, hurl2, hurl2 ▸ hne⟩
            rw [hcb] at hconf
            exact Bool.noConfusion hconf
  · intro hf
    simp [add_entry, hf]
  · intro f hf
    constructor
    · intro hex
      have hcb := (entryConflict_iff db f.id a.url).2 hex
      simp [add_entry, hf, hcb]
    · intro hnex
      have hcb : entryConflict db f.id a.url = false := by
        cases hb : entryConflict db f.id a.url with
        | false => rfl
        | true => exact absurd ((entryConflict_iff db f.id a.url).1 hb) hnex
      simp [add_entry, hf, hcb]

/-- Fixture for the C3 witness: one registered feed holding one entry with
link "l". -/
def dbOneEntry : DB :=
  { feeds := [{ id := 1, url := "u", added := "T0", title := none,
                etag := none, last_modified := some "M" }],
    entries := [{ id := 1, feed_id := 1, title := some "A", url := some "l",
                  published := none, content := none, summary := none,
                  ai_summary := none, added := "T1", tags := none,
                  ai_tags := none }],
    nextFeedId := 2, nextEntryId := 2 }

/-- Witness for C3 at the duplicate pair: inserting (feed "u", link "l") a
second time returns `none` and leaves the store untouched. -/
theorem c3_add_entry_insert_if_absent_witness :
    add_entry "T2" { feed_url := "u", url := some "l" } dbOneEntry =
      (dbOneEntry, none) :=
  ((c3_add_entry_insert_if_absent "T2" { feed_url := "u", url := some "l" }
      dbOneEntry (List.pairwise_singleton _ _)).2.2
    { id := 1, url := "u", added := "T0", title := none, etag := none,
      last_modified := some "M" } rfl).1 (by decide)

/-- `updFeedRow` never changes the url of a row. -/
theorem updFeedRow_url (info : FeedInfo) (lm feed_url : String) (f : FeedRow) :
    (updFeedRow info lm feed_url f).url = f.url := by
  unfold updFeedRow
  split <;> rfl

/-- A row whose url is not the updated one is untouched by `updFeedRow`. -/
theorem updFeedRow_other (info : FeedInfo) (lm feed_url : String) (f : FeedRow)
    (h : f.url ≠ feed_url) : updFeedRow info lm feed_url f = f := by
  simp [updFeedRow, h]

/-- Claim C6, counterexample: feed "u" is stored with
`last_modified = "2020-01-01T00:00:00Z"`; a re-registration supplying only an
etag (no title, no last_modified) leaves — per the claim — `last_modified`
unchanged, but `add_feed` overwrites it with the current time, because
`_normalize_timestamp` turns the absent value into `now` and the update
branch then sees a non-null field. -/
theorem c6_unsupplied_last_modified_overwritten :
    (add_feed (fun _ => none) "2026-10-12T00:00:00Z"
        { url := some "u", etag := some "E1" }
        { feeds := [{ id := 1, url := "u", added := "T0", title := some "t0",
                      etag := some "e0",
                      last_modified := some "2020-01-01T00:00:00Z" }],
          entries := [], nextFeedId := 2, nextEntryId := 1 }).1.feeds =
      [{ id := 1, url := "u", added := "T0", title := some "t0",
         etag := some "E1", last_modified := some "2026-10-12T00:00:00Z" }] := by
  rfl

/-- Claim C6 as amended: upserting an already-registered url updates `title`
and `etag` exactly when supplied (unsupplied ones keep their stored values),
but always overwrites `last_modified` with the normalization of the supplied
value — the current time when it is absent or unparseable; the call reports
success, no row is added or removed, no url changes, and rows with other
urls are untouched. -/
theorem c6_upsert_updates_only_supplied_title_etag
    (parse : String → Option String) (now : String) (info : FeedInfo)
    (db : DB) (u : String) (f : FeedRow)
    (hu : pyStrip (info.url.getD "") = u) (hne : u ≠ "")
    (hf : findFeed db u = some f) :
    (add_feed parse now info db).2 = true ∧
    (add_feed parse now info db).1.feeds.length = db.feeds.length ∧
    (add_feed parse now info db).1.feeds.map (fun g => g.url) =
      db.feeds.map (fun g => g.url) ∧
    (∀ g ∈ db.feeds, g.url ≠ u → g ∈ (add_feed parse now info db).1.feeds) ∧
    (∃ g ∈ (add_feed parse now info db).1.feeds,
       g.id = f.id ∧ g.url = u ∧ g.added = f.added ∧
       g.title = (match info.title with | some t => some t | none => f.title) ∧
       g.etag = (match info.etag with | some e => some e | none => f.etag) ∧
       g.last_modified = some (normalizeTimestamp parse now info.last_modified)) := by
  have hf2 : db.feeds.find? (fun g => decide (g.url = u)) = some f := hf
  have hfu : f.url = u := by
    have hpf := List.find?_some hf2
    simpa using hpf
  have hmem : f ∈ db.feeds := List.mem_of_find?_eq_some hf2
  unfold add_feed
  rw [hu]
  simp only [hne, if_false, hf]
  refine ⟨trivial, by simp, ?_, ?_, ?_⟩
  · rw [List.map_map]
    exact List.map_congr_left (fun g _ => updFeedRow_url _ _ _ g)
  · intro g hg hgu
    have : updFeedRow info (normalizeTimestamp parse now info.last_modified) u g = g :=
      updFeedRow_other _ _ _ g hgu
    simpa [this] using
      List.mem_map_of_mem (updFeedRow info (normalizeTimestamp parse now info.last_modified) u) hg
  · refine ⟨updFeedRow info (normalizeTimestamp parse now info.last_modified) u f,
      List.mem_map_of_mem _ hmem, ?_⟩
    simp [updFeedRow, hfu]

/-- Witness for the amended C6: re-registering feed "u" supplying only an
etag; applying the theorem at this concrete store. -/
theorem c6_upsert_witness :
    (add_feed (fun _ => none) "2026-10-12T00:00:00Z"
        { url := some "u", etag := some "E1" } dbOneEntry).2 = true ∧
    (add_feed (fun _ => none) "2026-10-12T00:00:00Z"
        { url := some "u", etag := some "E1" } dbOneEntry).1.feeds.length =
      dbOneEntry.feeds.length ∧
    (add_feed (fun _ => none) "2026-10-12T00:00:00Z"
        { url := some "u", etag := some "E1" } dbOneEntry).1.feeds.map
        (fun g => g.url) = dbOneEntry.feeds.map (fun g => g.url) ∧
    (∀ g ∈ dbOneEntry.feeds, g.url ≠ "u" →
      g ∈ (add_feed (fun _ => none) "2026-10-12T00:00:00Z"
        { url := some "u", etag := some "E1" } dbOneEntry).1.feeds) ∧
    (∃ g ∈ (add_feed (fun _ => none) "2026-10-12T00:00:00Z"
        { url := some "u", etag := some "E1" } dbOneEntry).1.feeds,
       g.id = 1 ∧ g.url = "u" ∧ g.added = "T0" ∧
       g.title = none ∧ g.etag = some "E1" ∧
       g.last_modified = some (normalizeTimestamp (fun _ => none)
         "2026-10-12T00:00:00Z" none)) :=
  c6_upsert_updates_only_supplied_title_etag (fun _ => none)
    "2026-10-12T00:00:00Z" { url := some "u", etag := some "E1" } dbOneEntry
    "u" { id := 1, url := "u", added := "T0", title := none, etag := none,
          last_modified := some "M" }
    (by decide) (by decide) rfl

/-- `_normalize_timestamp` never yields the empty string (its inputs `now`
and the parse results are nonempty ISO strings). -/
theorem normalizeTimestamp_ne_empty (parse : String → Option String)
    (now : String) (ts : Option String) (hnow : now ≠ "")
    (hparse : ∀ s r, parse s = some r → r ≠ "") :
    normalizeTimestamp parse now ts ≠ "" := by
  unfold normalizeTimestamp
  cases ts with
  | none => exact hnow
  | some s =>
      by_cases hs : s = ""
      · simp only [hs, if_true]; exact hnow
      · simp only [hs, if_false]
        cases hp : parse s with
        | none => exact hnow
        | some iso => exact hparse s iso hp

/-- `add_feed` keeps every feed row's `last_modified` a nonempty string. -/
theorem add_feed_preserves_lm (parse : String → Option String) (now : String)
    (info : FeedInfo) (db : DB) (hnow : now ≠ "")
    (hparse : ∀ s r, parse s = some r → r ≠ "")
    (ih : ∀ f ∈ db.feeds, ∃ s, f.last_modified = some s ∧ s ≠ "") :
    ∀ f ∈ (add_feed parse now info db).1.feeds,
      ∃ s, f.last_modified = some s ∧ s ≠ "" := by
  intro f hf
  unfold add_feed at hf
  by_cases hue : pyStrip (info.url.getD "") = ""
  · simp only [hue, if_true] at hf
    exact ih f hf
  · simp only [hue, if_false] at hf
    cases hff : findFeed db (pyStrip (info.url.getD "")) with
    | none =>
        rw [hff] at hf
        simp only [List.mem_append, List.mem_singleton] at hf
        cases hf with
        | inl hold => exact ih f hold
        | inr hnew =>
            subst hnew
            by_cases hlm : normalizeTimestamp parse now info.last_modified = ""
            · exact ⟨now, by simp [hlm], hnow⟩
            · exact ⟨normalizeTimestamp parse now info.last_modified,
                by simp [hlm], hlm⟩
    | some f0 =>
        rw [hff] at hf
        simp only [List.mem_map] at hf
        obtain ⟨g, hg, hgf⟩ := hf
        subst hgf
        unfold updFeedRow
        by_cases hgu : g.url = pyStrip (info.url.getD "")
        · simp only [hgu, if_true]
          exact ⟨normalizeTimestamp parse now info.last_modified, rfl,
            normalizeTimestamp_ne_empty parse now info.last_modified hnow hparse⟩
        · simp only [hgu, if_false]
          exact ih g hg

/-- Every reachable store has a nonempty `last_modified` on every feed row
(so the default-batch sort key is never `None`). -/
theorem reachable_lm (db : DB) (h : Reachable db) :
    ∀ f ∈ db.feeds, ∃ s, f.last_modified = some s ∧ s ≠ "" := by
  induction h with
  | init => intro f hf; cases hf
  | step_add_feed parse now info db hnow hparse _ ih =>
      exact add_feed_preserves_lm parse now info db hnow hparse ih
  | step_add_entry now a db _ ih =>
      intro f hf
      unfold add_entry at hf
      cases hff : findFeed db a.feed_url with
      | none => rw [hff] at hf; exact ih f hf
      | some f0 =>
          rw [hff] at hf
          by_cases hc : entryConflict db f0.id a.url
          · simp only [hc, if_true] at hf; exact ih f hf
          · simp only [hc, if_false] at hf; exact ih f hf

/-- Claim C7: on every reachable store, the default (no explicit url list)
batch returns normally — no unhandled fault — and polls a bounded subset of
the registered feeds: at most 5 of them, each registered, ordered by
staleness (oldest `last_modified` first). -/
theorem c7_default_batch_bounded_stale_first (db : DB)
    (run : String → Except String Nat) (h : Reachable db) :
    ∃ sel : List FeedDict,
      defaultUrls db = .ok (sel.map (fun f => f.url)) ∧
      sel.length ≤ 5 ∧
      (∀ f ∈ sel, f ∈ list_feeds db) ∧
      sel.Pairwise
        (fun a b => a.last_modified.getD "" ≤ b.last_modified.getD "") ∧
      fetch_batch run none db =
        .ok ((sel.map (fun f => f.url)).length,
             batchTotal ((sel.map (fun f => f.url)).map run)) := by
  haveI hT : IsTotal FeedDict
      (fun a b => a.last_modified.getD "" ≤ b.last_modified.getD "") :=
    ⟨fun a b => le_total _ _⟩
  haveI hTr : IsTrans FeedDict
      (fun a b => a.last_modified.getD "" ≤ b.last_modified.getD "") :=
    ⟨fun a b c h₁ h₂ => le_trans h₁ h₂⟩
  have hsome : ∀ fd ∈ list_feeds db, fd.last_modified.isSome = true := by
    intro fd hfd
    unfold list_feeds at hfd
    simp only [List.mem_map] at hfd
    obtain ⟨f, hf, hffd⟩ := hfd
    obtain ⟨s, hs, hsne⟩ := reachable_lm db h f hf
    subst hffd
    simp [feedToDict, presentOpt, hs, hsne]
  have hcond : (list_feeds db).length ≤ 1 ∨
      (list_feeds db).all (fun f => f.last_modified.isSome) = true :=
    Or.inr (List.all_eq_true.2 hsome)
  refine ⟨(List.insertionSort
      (fun a b => a.last_modified.getD "" ≤ b.last_modified.getD "")
      (list_feeds db)).take 5, ?_, ?_, ?_, ?_, ?_⟩
  · unfold defaultUrls sortFeedsByLm
    rw [if_pos hcond]
  · exact List.length_take_le 5 _
  · intro f hf
    have hmem := List.mem_of_mem_take hf
    exact ((List.perm_insertionSort _ _).mem_iff).1 hmem
  · exact List.Pairwise.sublist (List.take_sublist 5 _)
      (List.sorted_insertionSort _ _)
  · unfold fetch_batch defaultUrls sortFeedsByLm
    rw [if_pos hcond]

/-- The strptime abstraction used by the C7 witness: nothing parses. -/
def pf7 : String → Option String := fun _ => none

/-- Fixture for the C7 witness: two feeds registered through `add_feed`. -/
def db7 : DB :=
  (add_feed pf7 "2026-01-02T00:00:00Z" { url := some "b" }
    (add_feed pf7 "2026-01-01T00:00:00Z" { url := some "a" } DB.empty).1).1

/-- Witness for C7: the theorem applied to the two-feed reachable store. -/
theorem c7_default_batch_witness :
    ∃ sel : List FeedDict,
      defaultUrls db7 = .ok (sel.map (fun f => f.url)) ∧
      sel.length ≤ 5 ∧
      (∀ f ∈ sel, f ∈ list_feeds db7) ∧
      sel.Pairwise
        (fun a b => a.last_modified.getD "" ≤ b.last_modified.getD "") ∧
      fetch_batch (fun _ => .ok 0) none db7 =
        .ok ((sel.map (fun f => f.url)).length,
             batchTotal ((sel.map (fun f => f.url)).map (fun _ => .ok 0))) :=
  c7_default_batch_bounded_stale_first db7 (fun _ => .ok 0)
    (Reachable.step_add_feed pf7 "2026-01-02T00:00:00Z" _ _ (by decide)
      (fun _ r hr => Option.noConfusion hr)
      (Reachable.step_add_feed pf7 "2026-01-01T00:00:00Z" _ _ (by decide)
        (fun _ r hr => Option.noConfusion hr) Reachable.init))

/-- Claim C8, counterexample: the claim says script and style elements are
removed, but `clean_html` — `get_text` without decomposing them — keeps the
text inside a `script` element, unlike the spec-worded variant. -/
theorem c8_script_text_retained :
    clean_html [Html.elem "p" [Html.text "hi"],
                Html.elem "script" [Html.text "var x = 1;"]] = "hi var x = 1;" ∧
    clean_html_spec [Html.elem "p" [Html.text "hi"],
                     Html.elem "script" [Html.text "var x = 1;"]] = "hi" := by
  exact ⟨rfl, rfl⟩

/-- Claim C8 as amended: the parser is total and tolerant — a malformed
(bozo) feed or one without entries yields the empty sequence — and
`clean_html` strips markup in the sense that tags contribute nothing (the
output is invariant under renaming an element, and an element wrapper around
text changes nothing), but the text inside script/style elements is retained
rather than removed. -/
theorem c8_parse_feed_tolerant_markup_stripped :
    (∀ fp : FPFeed, fp.bozo = true → parse_feed fp = []) ∧
    (∀ fp : FPFeed, fp.entries = [] → parse_feed fp = []) ∧
    (∀ t₁ t₂ : String, ∀ kids : List Html,
       clean_html [Html.elem t₁ kids] = clean_html [Html.elem t₂ kids]) ∧
    (∀ tag s : String,
       clean_html [Html.elem tag [Html.text s]] = clean_html [Html.text s]) := by
  refine ⟨?_, ?_, ?_, ?_⟩
  · intro fp hb; simp [parse_feed, hb]
  · intro fp he; simp [parse_feed, he]
  · intro t₁ t₂ kids; rfl
  · intro tag s; rfl

/-- Witness for the amended C8 at concrete feeds and concrete HTML. -/
theorem c8_parse_feed_tolerant_witness :
    parse_feed { bozo := true, entries := [{ title := some "A" }] } = [] ∧
    parse_feed { bozo := false, entries := [] } = [] ∧
    clean_html [Html.elem "div" [Html.text "hi"]] =
      clean_html [Html.elem "span" [Html.text "hi"]] ∧
    clean_html [Html.elem "style" [Html.text "b"]] =
      clean_html [Html.text "b"] :=
  ⟨c8_parse_feed_tolerant_markup_stripped.1 _ rfl,
   c8_parse_feed_tolerant_markup_stripped.2.1 _ rfl,
   c8_parse_feed_tolerant_markup_stripped.2.2.1 "div" "span" _,
   c8_parse_feed_tolerant_markup_stripped.2.2.2 "style" "b"⟩

end FeedQuest
